import Mathlib

/-!
Verification development for the `revisor_artigos_sl3v1` pipeline
(`src/revisor_artigos_sl3v1/main.py`).

The Python source is shallowly embedded: strings are handled at the level
of `List Char` (matching Python's code-point view of `str`), the regular
expressions of the source are modelled by explicit character scanners with
the same match semantics, fallible code returns `Option`, exceptions of
external collaborators are values of `PyResult`, and the filesystem side
effects (YAML record files, markdown article files, the log) are threaded
through an explicit `RunState`.

The YAML codec (`yaml.safe_load`) is an external library, out of the
program's own code; it is modelled here by an executable parser of the
block-style fragment the program exchanges (top-level block mappings,
nested block sequences indented under their key, plain scalars, keys that
may contain `:` when not followed by a space, parse failure on a
non-key line inside a mapping).  `yaml.dump` is modelled by storing the
structured value itself in the record store.
-/

namespace RevisorArtigos

/-- Python's whitespace set for `str.strip` / `\s` (ASCII fragment). -/
def pySpace (c : Char) : Bool :=
  c == ' ' || c == '\t' || c == '\n' || c == '\r' || c == Char.ofNat 11 || c == Char.ofNat 12

/-- `line.rstrip()` on a list of characters. -/
def dropTrailingSpaces (l : List Char) : List Char :=
  (l.reverse.dropWhile pySpace).reverse

/-- `s.strip()` on a list of characters. -/
def pyStripList (l : List Char) : List Char :=
  dropTrailingSpaces (l.dropWhile pySpace)

/-- `str.splitlines` restricted to `\n` boundaries (the only line break
the pipeline's strings contain). -/
def splitOnNl : List Char → List (List Char)
  | [] => [[]]
  | c :: cs =>
    let r := splitOnNl cs
    if c == '\n' then [] :: r
    else
      match r with
      | [] => [[c]]
      | h :: t => (c :: h) :: t

/-- `sep.join(lines)` on lists of characters. -/
def joinWith (sep : List Char) : List (List Char) → List Char
  | [] => []
  | [l] => l
  | l :: ls => l ++ sep ++ joinWith sep ls

/-- Is `p` a prefix of the second list? -/
def isPrefixChars : List Char → List Char → Bool
  | [], _ => true
  | _ :: _, [] => false
  | p :: ps, c :: cs => p == c && isPrefixChars ps cs

/-- Index of the first occurrence of `pat` (Python `str.find`, as an
`Option`). -/
def findSubIdx (pat : List Char) : List Char → Option Nat
  | [] => if pat.isEmpty then some 0 else none
  | c :: cs =>
    if isPrefixChars pat (c :: cs) then some 0
    else (findSubIdx pat cs).map (· + 1)

/-- Python's `pat in hay` substring test. -/
def pyContains (hay pat : String) : Bool :=
  (findSubIdx pat.data hay.data).isSome

/-- The character class of `re.sub(r'[\\/*?:"<>|\n]', '_', ...)` in
`sanitize_filename`. -/
def pyBadFileChar (c : Char) : Bool :=
  c == '\\' || c == '/' || c == '*' || c == '?' || c == ':' ||
  c == '"' || c == '<' || c == '>' || c == '|' || c == '\n'

/-- `re.sub` of a single-character class: replace every matching character
by `'_'`. -/
def replaceWhere (p : Char → Bool) : List Char → List Char
  | [] => []
  | c :: cs => (if p c then '_' else c) :: replaceWhere p cs

/-- `sanitize_filename` from `main.py`: replaces each of
`\ / * ? : " < > |` and the newline by `_`. -/
def sanitize_filename (filename : String) : String :=
  String.mk (replaceWhere pyBadFileChar filename.data)

/-- The backtick character (96), kept out of literals. -/
def tickChar : Char := Char.ofNat 96

/-- Length of the leading run of backticks. -/
def tickRun : List Char → Nat
  | c :: cs => if c == tickChar then tickRun cs + 1 else 0
  | [] => 0

/-- Scanner for `re.sub(r'```+\s*yaml\s*', '', content)`: at each
position, a run of at least three backticks followed by optional
whitespace, the word `yaml` and optional whitespace is deleted; otherwise
the character is kept and scanning resumes one position later, exactly as
`re.sub` does.  `fuel` bounds recursion (one unit per consumed prefix). -/
def stripYamlFence : Nat → List Char → List Char
  | 0, cs => cs
  | _, [] => []
  | fuel + 1, c :: cs =>
    if c == tickChar then
      let n := tickRun (c :: cs)
      if 3 ≤ n then
        let afterWs := ((c :: cs).drop n).dropWhile pySpace
        if isPrefixChars ['y', 'a', 'm', 'l'] afterWs then
          stripYamlFence fuel ((afterWs.drop 4).dropWhile pySpace)
        else c :: stripYamlFence fuel cs
      else c :: stripYamlFence fuel cs
    else c :: stripYamlFence fuel cs

/-- Scanner for `re.sub(r'```+', '', content)`: delete every run of at
least three backticks. -/
def stripTickRuns : Nat → List Char → List Char
  | 0, cs => cs
  | _, [] => []
  | fuel + 1, c :: cs =>
    if c == tickChar then
      let n := tickRun (c :: cs)
      if 3 ≤ n then stripTickRuns fuel ((c :: cs).drop n)
      else c :: stripTickRuns fuel cs
    else c :: stripTickRuns fuel cs

/-- `limpar_conteudo_yaml` from `main.py`: strip markdown code fences and
backticks, drop blank lines, right-strip each line, and strip the
result. -/
def limpar_conteudo_yaml (content : String) : String :=
  if content.data.isEmpty then ""
  else
    let cs := content.data
    let cs := stripYamlFence (cs.length + 1) cs
    let cs := stripTickRuns (cs.length + 1) cs
    let cs := cs.filter (fun c => !(c == tickChar))
    let ls := (splitOnNl cs).map dropTrailingSpaces
    let kept := ls.filter (fun l => !((l.dropWhile pySpace).isEmpty))
    String.mk (pyStripList (joinWith ['\n'] kept))

/-! ## Model of the external YAML codec (`yaml.safe_load`)

The spec treats YAML serialization as a standard external format codec.
The model below parses the block-style fragment the pipeline exchanges;
`none` is a parse error (`yaml.YAMLError`), `some .null` is the null
document. -/

/-- YAML values of the fragment the pipeline exchanges.  Scalars are kept
as strings (the pipeline's payloads only carry textual section values). -/
inductive Yaml where
  | null : Yaml
  | str : String → Yaml
  | list : List Yaml → Yaml
  | dict : List (String × Yaml) → Yaml

/-- First-match association lookup (Python `dict` membership / subscript
for the keyed documents of this model). -/
def lookupKey : List (String × Yaml) → String → Option Yaml
  | [], _ => none
  | (k, v) :: rest, key => if k == key then some v else lookupKey rest key

/-- Resolve a plain (or double-quoted) scalar: empty and the `null`
spellings become the null value, everything else stays a string. -/
def resolveScalar (cs : List Char) : Yaml :=
  match cs with
  | [] => .null
  | _ =>
    let s := String.mk cs
    if s == "~" || s == "null" || s == "Null" || s == "NULL" then .null
    else
      match cs with
      | '"' :: rest =>
        if 1 ≤ rest.length && rest.getLast? == some '"' then .str (String.mk rest.dropLast)
        else .str s
      | _ => .str s

/-- Split a source string into (indent, right-stripped content) lines,
skipping blank lines as the YAML scanner does. -/
def lineate (s : String) : List (Nat × List Char) :=
  (splitOnNl s.data).filterMap (fun l =>
    let content := l.dropWhile (fun c => c == ' ')
    let indent := l.length - content.length
    let content := dropTrailingSpaces content
    if content.isEmpty then none else some (indent, content))

/-- Scan a line for the first `:` that ends a plain key (followed by a
space or the end of the line); returns the key characters and the
remainder.  A `:` followed by a non-space stays inside the plain key,
as in the YAML plain-scalar rule. -/
def findColonSep : List Char → Option (List Char × List Char)
  | [] => none
  | ':' :: rest =>
    match rest with
    | [] => some ([], [])
    | ' ' :: r => some ([], r)
    | _ =>
      match findColonSep rest with
      | some (k, v) => some (':' :: k, v)
      | none => none
  | c :: rest =>
    match findColonSep rest with
    | some (k, v) => some (c :: k, v)
    | none => none

/-- Does the line start a block-sequence entry (`-` alone or `- ...`)? -/
def startsDash : List Char → Bool
  | ['-'] => true
  | '-' :: ' ' :: _ => true
  | _ => false

/-- Plain-scalar document lines: consume lines at or above `minInd`; a
line introducing a mapping key or a sequence entry there is a parse
error, as in the YAML composer. -/
def parseScalarLines : List (Nat × List Char) → Nat →
    Option (List (List Char) × List (Nat × List Char))
  | [], _ => some ([], [])
  | (i, c) :: rest, minInd =>
    if i < minInd then some ([], (i, c) :: rest)
    else if (findColonSep c).isSome || startsDash c then none
    else
      match parseScalarLines rest minInd with
      | some (ps, rem) => some (c :: ps, rem)
      | none => none

mutual

/-- Parse one block node whose lines are indented at least `minInd`. -/
def parseNode : Nat → List (Nat × List Char) → Nat → Option (Yaml × List (Nat × List Char))
  | 0, _, _ => none
  | f + 1, lines, minInd =>
    match lines with
    | [] => some (.null, [])
    | (i, content) :: _ =>
      if i < minInd then some (.null, lines)
      else if startsDash content then
        match parseSeqItems f lines i with
        | some (vs, rem) => some (.list vs, rem)
        | none => none
      else
        match findColonSep content with
        | some _ =>
          match parseMapPairs f lines i with
          | some (kvs, rem) => some (.dict kvs, rem)
          | none => none
        | none =>
          match parseScalarLines lines minInd with
          | some (ps, rem) => some (resolveScalar (joinWith [' '] ps), rem)
          | none => none

/-- Parse the entries of a block sequence whose dashes sit at indent `i`. -/
def parseSeqItems : Nat → List (Nat × List Char) → Nat →
    Option (List Yaml × List (Nat × List Char))
  | 0, _, _ => none
  | f + 1, lines, i =>
    match lines with
    | [] => some ([], [])
    | (j, content) :: rest =>
      if j == i && startsDash content then
        let tail := content.drop 1
        let spaces := tail.takeWhile (fun c => c == ' ')
        let item := tail.drop spaces.length
        let itemRes :=
          if item.isEmpty then parseNode f rest (i + 1)
          else parseNode f ((i + 1 + spaces.length, item) :: rest) (i + 1)
        match itemRes with
        | none => none
        | some (v, rem) =>
          match parseSeqItems f rem i with
          | some (vs, rem2) => some (v :: vs, rem2)
          | none => none
      else if i < j then none
      else some ([], lines)

/-- Parse the pairs of a block mapping whose keys sit at indent `i`.  A
line at the mapping's indent without a key separator is a parse error
(the scanner's missing-`:` error). -/
def parseMapPairs : Nat → List (Nat × List Char) → Nat →
    Option (List (String × Yaml) × List (Nat × List Char))
  | 0, _, _ => none
  | f + 1, lines, i =>
    match lines with
    | [] => some ([], [])
    | (j, content) :: rest =>
      if j < i then some ([], lines)
      else if i < j then none
      else if startsDash content then none
      else
        match findColonSep content with
        | none => none
        | some (k, v) =>
          let key := String.mk (dropTrailingSpaces k)
          let vTrim := pyStripList v
          if vTrim.isEmpty then
            match parseNode f rest (i + 1) with
            | none => none
            | some (value, rem) =>
              match parseMapPairs f rem i with
              | some (kvs, rem2) => some ((key, value) :: kvs, rem2)
              | none => none
          else
            match rest with
            | (j2, _) :: _ =>
              if i < j2 then none
              else
                match parseMapPairs f rest i with
                | some (kvs, rem2) => some ((key, resolveScalar vTrim) :: kvs, rem2)
                | none => none
            | [] => some ([(key, resolveScalar vTrim)], [])

end

/-- Model of `yaml.safe_load`: `none` is a `yaml.YAMLError`, `some` a
successfully composed document. -/
def safe_load (s : String) : Option Yaml :=
  match lineate s with
  | [] => some .null
  | lines =>
    match parseNode ((s.data.length + 4) * 8) lines 0 with
    | some (v, []) => some v
    | _ => none

/-! ## Payload extraction -/

/-- `extrair_yaml_content` from `main.py`: clean the raw content, locate
the `ARTIGO:` marker, slice from the marker to the end of the text, and
return the slice when it parses under the YAML codec; `none` otherwise. -/
def extrair_yaml_content (content : String) : Option String :=
  if content.data.isEmpty then none
  else
    let c := limpar_conteudo_yaml content
    match findSubIdx "ARTIGO:".data c.data with
    | some i =>
      let y := String.mk (c.data.drop i)
      match safe_load y with
      | some _ => some y
      | none => none
    | none => none

/-! ## Stage-result processing -/

/-- One entry of `results.tasks_output`: the producing agent's display
name and the raw text it produced. -/
structure TaskOutput where
  agent : String
  raw : String

/-- Python truthiness of `article_data and isinstance(article_data, dict)`:
a non-empty keyed document. -/
def yamlTruthyDict : Yaml → Bool
  | .dict (_ :: _) => true
  | _ => false

/-- `processar_resultado_leitura` from `main.py`: find the reader agent's
output, extract its YAML payload, and accept it only when it parses to a
keyed document containing `ARTIGO`. -/
def processar_resultado_leitura : List TaskOutput → Option String
  | [] => none
  | t :: rest =>
    if pyContains t.agent "Leitor de PDFs" then
      match extrair_yaml_content t.raw with
      | none => processar_resultado_leitura rest
      | some y =>
        match safe_load y with
        | none => none
        | some v =>
          match v with
          | .dict kvs => if (lookupKey kvs "ARTIGO").isSome then some y else none
          | _ => none
    else processar_resultado_leitura rest

/-! ## Persistent state

`RunState` models the filesystem artifacts the pipeline writes (the YAML
record files of `resources/yamls/`, the markdown articles of
`resources/artigos_markdown/`) and the per-document log lines.  A write
prepends, so the first binding of a name is the current file content. -/

/-- Filesystem artifacts and the processing log of one run. -/
structure RunState where
  yamls : List (String × Yaml)
  markdowns : List (String × String)
  log : List String

/-- Name of the persisted record file for one source document. -/
def yamlOutputFile (stem : String) : String :=
  "output_" ++ sanitize_filename stem ++ ".yaml"

/-- `processar_resultado_revisao` from `main.py`: find the reviewer
agent's output, extract its YAML payload, and when it parses to a truthy
keyed document persist it under the sanitized document name and report
success; on any failure keep scanning the remaining outputs and finally
report failure.  Directory-existence and permission checks of the source
always pass in this model. -/
def processar_resultado_revisao : List TaskOutput → String → RunState → RunState × Bool
  | [], _, st => (st, false)
  | t :: rest, stem, st =>
    if pyContains t.agent "Revisor" then
      match extrair_yaml_content t.raw with
      | some y =>
        match safe_load y with
        | some v =>
          if yamlTruthyDict v then
            ({ st with yamls := (yamlOutputFile stem, v) :: st.yamls }, true)
          else processar_resultado_revisao rest stem st
        | none => processar_resultado_revisao rest stem st
      | none => processar_resultado_revisao rest stem st
    else processar_resultado_revisao rest stem st

/-- `processar_resultado_pesquisa` from `main.py`: the researcher agent's
output is free text; it counts only when its stripped form is longer than
ten characters. -/
def processar_resultado_pesquisa : List TaskOutput → Option String
  | [] => none
  | t :: rest =>
    if pyContains t.agent "Pesquisador" then
      if t.raw.data.isEmpty then processar_resultado_pesquisa rest
      else
        let stripped := String.mk (pyStripList t.raw.data)
        if 10 < stripped.data.length then some stripped else none
    else processar_resultado_pesquisa rest

/-- Python's `\w` class (ASCII fragment), used by `save_article`. -/
def pyWordChar (c : Char) : Bool :=
  c.isAlpha || c.isDigit || c == '_'

/-- The character class of `re.sub(r'[^\w\-\.]', '_', ...)` in
`save_article`. -/
def saveBadChar (c : Char) : Bool :=
  !(pyWordChar c || c == '-' || c == '.')

/-- `re.sub(r'_+', '_', ...)`: collapse each run of underscores.  The
flag records whether the previous kept character closed an underscore
run. -/
def collapseUnderscores : Bool → List Char → List Char
  | _, [] => []
  | prev, c :: cs =>
    if c == '_' then
      if prev then collapseUnderscores true cs
      else '_' :: collapseUnderscores true cs
    else c :: collapseUnderscores false cs

/-- `save_article` from `main.py`: reject empty content or an empty file
name (a raised `ValueError`, modelled as `none`), otherwise sanitize the
file name by its own two-step regex and write the markdown file. -/
def save_article (content file_name : String) (st : RunState) : Option RunState :=
  if content.data.isEmpty then none
  else if file_name.data.isEmpty then none
  else
    let sName := String.mk (collapseUnderscores false (replaceWhere saveBadChar file_name.data))
    some { st with markdowns := (sName, content) :: st.markdowns }

/-- `processar_resultado_artigo` from `main.py`: find the article-writer
agent's output and save it; an exception raised by `save_article` is
caught and reported as failure. -/
def processar_resultado_artigo : List TaskOutput → String → RunState → RunState × Bool
  | [], _, st => (st, false)
  | t :: rest, stem, st =>
    if pyContains t.agent "Criador de Artigos" then
      if t.raw.data.isEmpty then processar_resultado_artigo rest stem st
      else
        match save_article t.raw ("artigo_" ++ stem ++ ".md") st with
        | some st2 => (st2, true)
        | none => (st, false)
    else processar_resultado_artigo rest stem st

/-! ## Pipeline coordinator

The language-model backend and the tool constructors are external
collaborators: each call either raises or returns a value.  A
`DocBehavior` records, for one source document, the behavior of every
external call the coordinator makes while processing it. -/

/-- Outcome of one call into an external collaborator. -/
inductive PyResult (α : Type) where
  | raises : PyResult α
  | returns : α → PyResult α

/-- External-world behavior for one source document:
tool/crew construction and input preparation (`prep`), the reading
kickoff, and the article kickoff.  A kickoff returning `none` models a
falsy result object; `some outs` a truthy result with `tasks_output`. -/
structure DocBehavior where
  prep : PyResult Unit
  kickoffLeitura : PyResult (Option (List TaskOutput))
  kickoffArtigo : PyResult (Option (List TaskOutput))

/-- One source document: its sanitizable stem and the behavior of the
external calls made for it. -/
structure Document where
  stem : String
  behavior : DocBehavior

/-- Pre-flight outcomes of `processar_pdfs`: directory verification,
configuration loading, and LLM construction. -/
structure Preflight where
  dirsOk : Bool
  configsOk : Bool
  llmOk : Bool

/-- The per-document body of the `processar_pdfs` loop: log the document,
then run the four stages in dependency order with the source's nested
success checks.  Every exception raised by an external call is caught at
this boundary (the loop's `except ... continue`), so the function is
total and merely reports failure. -/
def processDoc (b : DocBehavior) (stem : String) (st : RunState) : RunState × Bool :=
  let st := { st with log := st.log ++ [stem] }
  match b.prep with
  | .raises => (st, false)
  | .returns _ =>
    match b.kickoffLeitura with
    | .raises => (st, false)
    | .returns none => (st, false)
    | .returns (some outs) =>
      match processar_resultado_leitura outs with
      | none => (st, false)
      | some _ =>
        let r := processar_resultado_revisao outs stem st
        if r.2 then
          match processar_resultado_pesquisa outs with
          | none => (r.1, false)
          | some _ =>
            match b.kickoffArtigo with
            | .raises => (r.1, false)
            | .returns none => (r.1, false)
            | .returns (some outs2) =>
              let a := processar_resultado_artigo outs2 stem r.1
              (a.1, true)
        else (r.1, false)

/-- The per-document loop of `processar_pdfs`: process every document in
order, accumulating whether any document succeeded. -/
def pdfLoop : List Document → RunState → Bool → RunState × Bool
  | [], st, acc => (st, acc)
  | d :: rest, st, acc =>
    let r := processDoc d.behavior d.stem st
    pdfLoop rest r.1 (acc || r.2)

/-- `processar_pdfs` from `main.py`: the pre-flight checks (directories,
configurations, a non-empty PDF list, the LLM) abort the whole run with
`false`; otherwise every document is processed and the accumulated
success flag is returned. -/
def processar_pdfs (pre : Preflight) (docs : List Document) (st : RunState) : RunState × Bool :=
  if !pre.dirsOk then (st, false)
  else if !pre.configsOk then (st, false)
  else if docs.isEmpty then (st, false)
  else if !pre.llmOk then (st, false)
  else pdfLoop docs st false

/-! ## Article rendering -/

/-- The section mapping of `generate_linkedin_article`, in its declared
order. -/
def sections : List (String × String) :=
  [("GAP", "🎯 Por que isso importa?"),
   ("OBJETIVOS", "💡 O que descobrimos?"),
   ("METODOLOGIA", "🔍 Como chegamos lá?"),
   ("RESULTADOS", "📊 O que encontramos?"),
   ("LIMITAÇÕES", "⚠️ Quais são os desafios?"),
   ("FUTURO", "🔮 O que vem a seguir?")]

/-- Python's `key in artigo` on a YAML value: key membership for a keyed
document, element equality for a sequence, substring test for a string;
`none` models the `TypeError` raised on the null value. -/
def yamlContains (artigo : Yaml) (key : String) : Option Bool :=
  match artigo with
  | .dict kvs => some (lookupKey kvs key).isSome
  | .list xs =>
    some (xs.any (fun x =>
      match x with
      | .str s => s == key
      | _ => false))
  | .str s => some (pyContains s key)
  | .null => none

/-- Python's `artigo[key]` with a string key: defined for keyed documents
only; `none` models the `TypeError` on sequences and strings. -/
def yamlSubscript (artigo : Yaml) (key : String) : Option Yaml :=
  match artigo with
  | .dict kvs => lookupKey kvs key
  | _ => none

/-- The section loop of `generate_linkedin_article`: for each mapping
entry whose key the record contains, emit the heading line, the section
value and a blank separator; an absent key emits nothing.  `none` is a
raised `TypeError`. -/
def sectionContent (artigo : Yaml) : List (String × String) → Option (List Yaml)
  | [] => some []
  | (key, title) :: rest =>
    match yamlContains artigo key with
    | none => none
    | some false => sectionContent artigo rest
    | some true =>
      match yamlSubscript artigo key with
      | none => none
      | some v =>
        match sectionContent artigo rest with
        | none => none
        | some l => some (.str ("\n## " ++ title ++ "\n") :: v :: .str "\n" :: l)

/-- The fixed header lines of the rendered article. -/
def headerStrings (pdf_file_name : String) : List String :=
  ["🔬 #CiênciaNaPrática", "\n# " ++ pdf_file_name ++ "\n", "---\n"]

/-- The fixed call-to-action and hashtag lines of the rendered article. -/
def footerStrings : List String :=
  ["\n## 💭 E você, o que acha?\n",
   "Como essas descobertas podem impactar sua área? Compartilhe suas ideias! 👇\n",
   "\n---\n",
   "#IA #Pesquisa #Inovação #Tecnologia #Desenvolvimento #Ciência"]

/-- The `content` list that `generate_linkedin_article` accumulates:
header, then (when the record is a keyed document containing `ARTIGO`,
whose value is reduced to its first entry when it is a non-empty
sequence) the present sections, then the footer. -/
def buildContent (article_data : Yaml) (pdf_file_name : String) : Option (List Yaml) :=
  let header : List Yaml := (headerStrings pdf_file_name).map .str
  let footer : List Yaml := footerStrings.map .str
  match article_data with
  | .dict kvs =>
    match lookupKey kvs "ARTIGO" with
    | some av =>
      let artigo :=
        match av with
        | .list (a :: _) => a
        | x => x
      match sectionContent artigo sections with
      | none => none
      | some mid => some (header ++ mid ++ footer)
    | none => some (header ++ footer)
  | _ => some (header ++ footer)

/-- `'\n'.join(content)` succeeds only when every element is a string
(the `TypeError` on other values is modelled by `none`). -/
def strParts : List Yaml → Option (List String)
  | [] => some []
  | .str s :: rest => (strParts rest).map (s :: ·)
  | _ :: _ => none

/-- `generate_linkedin_article` from `main.py`: build the content list
and join it with newlines; any raised error yields `none`. -/
def generate_linkedin_article (article_data : Yaml) (pdf_file_name : String) : Option String :=
  match buildContent article_data pdf_file_name with
  | none => none
  | some l =>
    match strParts l with
    | none => none
    | some ss => some (String.intercalate "\n" ss)

/-! ## Specification-side helpers

These definitions restate, independently of the state threading, what
the stage functions decide; the theorems connect them to the embedded
code. -/

/-- Association lookup on string-valued records. -/
def lookupStr : List (String × String) → String → Option String
  | [], _ => none
  | (k, v) :: rest, key => if k == key then some v else lookupStr rest key

/-- A string-valued association list as a keyed YAML document. -/
def strDict (l : List (String × String)) : Yaml :=
  .dict (l.map (fun p => (p.1, Yaml.str p.2)))

/-- State-independent success of the review-processing step: some
reviewer output whose extracted payload parses to a truthy keyed
document. -/
def revisao_ok : List TaskOutput → Bool
  | [] => false
  | t :: rest =>
    if pyContains t.agent "Revisor" then
      match extrair_yaml_content t.raw with
      | some y =>
        match safe_load y with
        | some v => if yamlTruthyDict v then true else revisao_ok rest
        | none => revisao_ok rest
      | none => revisao_ok rest
    else revisao_ok rest

/-- End-to-end success of one source document through the four stages as
the coordinator checks them: preparation and the reading kickoff return,
the reader's payload validates, the reviewer's payload validates (and is
persisted), the researcher's output is substantial, and the article
kickoff returns a truthy result. -/
def docSuccess (b : DocBehavior) : Bool :=
  match b.prep with
  | .raises => false
  | .returns _ =>
    match b.kickoffLeitura with
    | .returns (some outs) =>
      (processar_resultado_leitura outs).isSome &&
      revisao_ok outs &&
      (processar_resultado_pesquisa outs).isSome &&
      (match b.kickoffArtigo with
       | .returns (some _) => true
       | _ => false)
    | _ => false

/-- The body blocks of a rendered article, at the specification level:
the sections present in the record, in the mapping's declared order, each
contributing its heading line, its text, and a separator. -/
def bodyStrings (artigo : List (String × String)) : List String :=
  (sections.filter (fun s => (lookupStr artigo s.1).isSome)).flatMap
    (fun s => ["\n## " ++ s.2 ++ "\n", (lookupStr artigo s.1).getD "", "\n"])

/-! ## Concrete fixtures -/

/-- The raw reviewer text of end-to-end scenario C, with the spec's
`ARTICLE` key. -/
def scenarioCInput : String := "noise ```yaml\nARTICLE:\n  - GAP: x\n```\nmore noise"

/-- An empty run state: no persisted records, no articles, no log. -/
def emptyState : RunState := ⟨[], [], []⟩

/-- A reviewer output whose payload parses to a keyed document that does
not contain the mandatory `ARTIGO` key (the plain-scalar key rule makes
`ARTIGO:x` the key). -/
def trickyReviewOuts : List TaskOutput := [⟨"Revisor", "ARTIGO:x: y"⟩]

/-- Task outputs of a document whose read, review and research stages all
validate. -/
def goodOuts : List TaskOutput :=
  [⟨"Leitor de PDFs", "ARTIGO: ok"⟩,
   ⟨"Revisor", "ARTIGO: ok"⟩,
   ⟨"Pesquisador", "resultados da pesquisa"⟩]

/-- A document whose external calls all return and whose stage outputs
validate end to end. -/
def goodDoc : Document :=
  ⟨"doc", ⟨.returns (), .returns (some goodOuts),
    .returns (some [⟨"Criador de Artigos", "conteudo"⟩])⟩⟩

/-- A pre-flight state in which every check passes. -/
def preAllOk : Preflight := ⟨true, true, true⟩

/-- Task outputs whose read and review stages validate but which contain
no researcher output, so the research stage fails. -/
def noResearchOuts : List TaskOutput :=
  [⟨"Leitor de PDFs", "ARTIGO: ok"⟩, ⟨"Revisor", "ARTIGO: ok"⟩]

/-- The behavior of a document whose later stage fails after a persisted
review record. -/
def staleRecordDoc : DocBehavior :=
  ⟨.returns (), .returns (some noResearchOuts), .raises⟩

/-! ## Lemmas connecting the stage functions to their specification-side
restatements -/

/-- When the review step succeeds, it persists exactly one truthy keyed
document under the sanitized document name and leaves the rest of the
state unchanged. -/
theorem revisao_write_of_ok {outs : List TaskOutput} (h : revisao_ok outs = true)
    (stem : String) (st : RunState) :
    ∃ v, yamlTruthyDict v = true ∧
      processar_resultado_revisao outs stem st =
        ({ st with yamls := (yamlOutputFile stem, v) :: st.yamls }, true) := by
  induction outs with
  | nil => simp [revisao_ok] at h
  | cons t rest ih =>
    unfold revisao_ok at h
    unfold processar_resultado_revisao
    by_cases hag : pyContains t.agent "Revisor" = true
    · rw [if_pos hag] at h
      rw [if_pos hag]
      cases hex : extrair_yaml_content t.raw with
      | none => rw [hex] at h; exact ih h
      | some y =>
        rw [hex] at h
        dsimp only at h ⊢
        cases hl : safe_load y with
        | none => rw [hl] at h; exact ih h
        | some v =>
          rw [hl] at h
          dsimp only at h ⊢
          cases hv : yamlTruthyDict v with
          | true => simp only [hv, if_true]; exact ⟨v, hv, rfl⟩
          | false => simp only [hv, Bool.false_eq_true, if_false] at h ⊢; exact ih h
    · rw [if_neg hag] at h
      rw [if_neg hag]
      exact ih h

/-- When the review step fails, the state is untouched. -/
theorem revisao_id_of_not_ok {outs : List TaskOutput} (h : revisao_ok outs = false)
    (stem : String) (st : RunState) :
    processar_resultado_revisao outs stem st = (st, false) := by
  induction outs with
  | nil => rfl
  | cons t rest ih =>
    unfold revisao_ok at h
    unfold processar_resultado_revisao
    by_cases hag : pyContains t.agent "Revisor" = true
    · rw [if_pos hag] at h
      rw [if_pos hag]
      cases hex : extrair_yaml_content t.raw with
      | none => rw [hex] at h; exact ih h
      | some y =>
        rw [hex] at h
        dsimp only at h ⊢
        cases hl : safe_load y with
        | none => rw [hl] at h; exact ih h
        | some v =>
          rw [hl] at h
          dsimp only at h ⊢
          cases hv : yamlTruthyDict v with
          | true => simp only [hv, if_true] at h; exact absurd h (by simp)
          | false => simp only [hv, Bool.false_eq_true, if_false] at h ⊢; exact ih h
    · rw [if_neg hag] at h
      rw [if_neg hag]
      exact ih h

/-- The review step's success flag does not depend on the state. -/
theorem revisao_flag (outs : List TaskOutput) (stem : String) (st : RunState) :
    (processar_resultado_revisao outs stem st).2 = revisao_ok outs := by
  cases h : revisao_ok outs with
  | true =>
    obtain ⟨v, _, heq⟩ := revisao_write_of_ok h stem st
    rw [heq]
  | false => rw [revisao_id_of_not_ok h stem st]

/-- A successful `save_article` only adds a markdown file. -/
theorem save_article_frame {content file_name : String} {st r : RunState}
    (h : save_article content file_name st = some r) :
    r.log = st.log ∧ r.yamls = st.yamls := by
  unfold save_article at h
  by_cases hc : content.data.isEmpty = true
  · rw [if_pos hc] at h; exact absurd h (by simp)
  · rw [if_neg hc] at h
    by_cases hf : file_name.data.isEmpty = true
    · rw [if_pos hf] at h; exact absurd h (by simp)
    · rw [if_neg hf] at h
      dsimp only at h
      cases h
      exact ⟨rfl, rfl⟩

/-- The article step touches only the markdown store. -/
theorem artigo_frame (outs : List TaskOutput) (stem : String) (st : RunState) :
    (processar_resultado_artigo outs stem st).1.log = st.log ∧
    (processar_resultado_artigo outs stem st).1.yamls = st.yamls := by
  induction outs generalizing st with
  | nil => exact ⟨rfl, rfl⟩
  | cons t rest ih =>
    unfold processar_resultado_artigo
    by_cases hag : pyContains t.agent "Criador de Artigos" = true
    · rw [if_pos hag]
      by_cases hr : t.raw.data.isEmpty = true
      · rw [if_pos hr]; exact ih st
      · rw [if_neg hr]
        cases hs : save_article t.raw ("artigo_" ++ stem ++ ".md") st with
        | none => exact ⟨rfl, rfl⟩
        | some st2 => exact save_article_frame hs
    · rw [if_neg hag]; exact ih st

/-- Processing one document appends exactly its name to the log,
whatever its stages do. -/
theorem processDoc_log (b : DocBehavior) (stem : String) (st : RunState) :
    (processDoc b stem st).1.log = st.log ++ [stem] := by
  unfold processDoc
  cases b.prep with
  | raises => rfl
  | returns u =>
    cases b.kickoffLeitura with
    | raises => rfl
    | returns o =>
      cases o with
      | none => rfl
      | some outs =>
        dsimp only
        cases hl : processar_resultado_leitura outs with
        | none => rfl
        | some y =>
          dsimp only
          cases hok : revisao_ok outs with
          | false =>
            rw [show (processar_resultado_revisao outs stem
                { st with log := st.log ++ [stem] }).2 = revisao_ok outs from
                revisao_flag outs stem _, hok]
            rw [revisao_id_of_not_ok hok stem _]
            simp
          | true =>
            obtain ⟨v, hv, heq⟩ := revisao_write_of_ok hok stem
              { st with log := st.log ++ [stem] }
            rw [heq]
            dsimp only
            cases processar_resultado_pesquisa outs with
            | none => rfl
            | some p =>
              dsimp only
              cases b.kickoffArtigo with
              | raises => rfl
              | returns o2 =>
                cases o2 with
                | none => rfl
                | some outs2 =>
                  dsimp only
                  exact (artigo_frame outs2 stem _).1

/-- Processing one document succeeds exactly when its four stages pass
the coordinator's checks; the state plays no role in the flag. -/
theorem processDoc_flag (b : DocBehavior) (stem : String) (st : RunState) :
    (processDoc b stem st).2 = docSuccess b := by
  unfold processDoc docSuccess
  cases b.prep with
  | raises => rfl
  | returns u =>
    cases b.kickoffLeitura with
    | raises => rfl
    | returns o =>
      cases o with
      | none => rfl
      | some outs =>
        dsimp only
        cases hl : processar_resultado_leitura outs with
        | none => rfl
        | some y =>
          dsimp only
          rw [show (processar_resultado_revisao outs stem
              { st with log := st.log ++ [stem] }).2 = revisao_ok outs from
              revisao_flag outs stem _]
          cases hok : revisao_ok outs with
          | false => simp
          | true =>
            simp only [if_true, Option.isSome_some, Bool.true_and]
            cases processar_resultado_pesquisa outs with
            | none => simp
            | some p =>
              dsimp only
              cases b.kickoffArtigo with
              | raises => simp
              | returns o2 =>
                cases o2 with
                | none => simp
                | some outs2 => simp

/-- The per-document loop logs every document, in order. -/
theorem pdfLoop_log (docs : List Document) (st : RunState) (acc : Bool) :
    (pdfLoop docs st acc).1.log = st.log ++ docs.map (·.stem) := by
  induction docs generalizing st acc with
  | nil => simp [pdfLoop]
  | cons d rest ih =>
    unfold pdfLoop
    dsimp only
    rw [ih]
    rw [processDoc_log]
    simp

/-- The per-document loop's flag is the disjunction of the per-document
successes. -/
theorem pdfLoop_flag (docs : List Document) (st : RunState) (acc : Bool) :
    (pdfLoop docs st acc).2 = (acc || docs.any (fun d => docSuccess d.behavior)) := by
  induction docs generalizing st acc with
  | nil => simp [pdfLoop]
  | cons d rest ih =>
    unfold pdfLoop
    dsimp only
    rw [ih]
    rw [processDoc_flag]
    simp [Bool.or_assoc]

/-! ## Claims -/

/-- C1, counterexample: on the raw input
`"noise ```yaml\nARTICLE:\n  - GAP: x\n```\nmore noise"` the payload
extractor followed by the structured-format parse does not produce the
record `{ARTICLE: [{GAP: "x"}]}`: the extractor's marker is `ARTIGO:`,
which the cleaned text lacks, so extraction fails. -/
theorem c1_extract_scenarioC_fails :
    ¬ ((extrair_yaml_content scenarioCInput).bind safe_load =
      some (Yaml.dict [("ARTICLE", Yaml.list [Yaml.dict [("GAP", Yaml.str "x")]])])) := by
  have h0 : extrair_yaml_content scenarioCInput = none := by decide
  intro h
  rw [h0] at h
  simp at h

/-- C1, amended: on that raw input the payload extractor fails, returning
the failure value `none` (its marker `ARTIGO:` does not occur in the
cleaned text; moreover the trailing noise would make the open-ended slice
unparseable). -/
theorem c1_extract_scenarioC_none :
    extrair_yaml_content scenarioCInput = none := by decide

/-- C2, counterexample: the review-processing step persists a record that
does not contain the mandatory `ARTIGO` key.  On the reviewer raw text
`"ARTIGO:x: y"` the parsed payload is the keyed document
`{"ARTIGO:x": "y"}` — a dict without the key `ARTIGO` — and the step
still reports success and writes the record file. -/
theorem c2_persists_record_without_mandatory_key :
    (processar_resultado_revisao trickyReviewOuts "doc" emptyState).2 = true ∧
    (processar_resultado_revisao trickyReviewOuts "doc" emptyState).1.yamls =
      [("output_doc.yaml", Yaml.dict [("ARTIGO:x", Yaml.str "y")])] ∧
    lookupKey [("ARTIGO:x", Yaml.str "y")] "ARTIGO" = none := by
  exact ⟨by decide, by rfl, by rfl⟩

/-- C2, amended: every record the review step persists is a non-empty
keyed document (the step rejects payloads that do not parse to a truthy
dict and writes no file for them), but membership of the mandatory
`ARTIGO` key is not itself checked at this step. -/
theorem c2_persisted_records_are_dicts (outs : List TaskOutput) (stem : String)
    (st : RunState) (e : String × Yaml)
    (he : e ∈ (processar_resultado_revisao outs stem st).1.yamls) :
    e ∈ st.yamls ∨ yamlTruthyDict e.2 = true := by
  cases hok : revisao_ok outs with
  | false =>
    rw [revisao_id_of_not_ok hok stem st] at he
    exact Or.inl he
  | true =>
    obtain ⟨v, hv, heq⟩ := revisao_write_of_ok hok stem st
    rw [heq] at he
    rcases List.mem_cons.mp he with h | h
    · right
      rw [h]
      exact hv
    · exact Or.inl h

/-- Witness for C2's amended theorem at the concrete persisted record. -/
theorem c2_persisted_records_are_dicts_witness :
    ("output_doc.yaml", Yaml.dict [("ARTIGO:x", Yaml.str "y")]) ∈ emptyState.yamls ∨
    yamlTruthyDict (Yaml.dict [("ARTIGO:x", Yaml.str "y")]) = true :=
  c2_persisted_records_are_dicts trickyReviewOuts "doc" emptyState _
    (by rw [show (processar_resultado_revisao trickyReviewOuts "doc" emptyState).1.yamls =
          [("output_doc.yaml", Yaml.dict [("ARTIGO:x", Yaml.str "y")])] from rfl]
        exact List.mem_singleton.mpr rfl)

/-- C3: for every raw text whose cleaned form does not contain the
mandatory marker `ARTIGO:`, the payload extractor fails with the failure
value `none` — it never returns a record (and, in the embedding, is a
total function, so no exception escapes). -/
theorem c3_no_marker_no_payload (content : String)
    (h : pyContains (limpar_conteudo_yaml content) "ARTIGO:" = false) :
    extrair_yaml_content content = none := by
  unfold extrair_yaml_content
  by_cases he : content.data.isEmpty = true
  · rw [if_pos he]
  · rw [if_neg he]
    dsimp only
    cases hf : findSubIdx "ARTIGO:".data (limpar_conteudo_yaml content).data with
    | none => rfl
    | some i =>
      exfalso
      unfold pyContains at h
      rw [hf] at h
      simp at h

/-- Witness for C3 at the concrete raw text `"hello"`. -/
theorem c3_no_marker_no_payload_witness :
    pyContains (limpar_conteudo_yaml "hello") "ARTIGO:" = false ∧
    extrair_yaml_content "hello" = none :=
  ⟨by decide, c3_no_marker_no_payload "hello" (by decide)⟩

/-- C6, counterexample: the key-sanitization function does not collapse
runs of `_`: on `"a??b"` it returns `"a__b"`, not the `"a_b"` the claim's
replace-then-collapse description would produce. -/
theorem c6_sanitize_does_not_collapse :
    sanitize_filename "a??b" = "a__b" ∧ sanitize_filename "a??b" ≠ "a_b" := by
  exact ⟨by decide, by decide⟩

/-- C6, amended: `sanitize_filename` replaces each occurrence of
`\ / : * ? " < > |` and the newline by `_` and leaves every other
character unchanged — a character-wise map, with no collapsing of
repeated `_`. -/
theorem c6_sanitize_is_charwise_replacement (s : String) :
    (sanitize_filename s).data =
      s.data.map (fun c => if pyBadFileChar c then '_' else c) := by
  show replaceWhere pyBadFileChar s.data = _
  induction s.data with
  | nil => rfl
  | cons c cs ih => simp [replaceWhere, ih]

/-- C7: key sanitization is idempotent — sanitizing an already sanitized
string changes nothing, because `_` is not itself a replaced character. -/
theorem c7_sanitize_idempotent (s : String) :
    sanitize_filename (sanitize_filename s) = sanitize_filename s := by
  unfold sanitize_filename
  refine congrArg String.mk ?_
  show replaceWhere pyBadFileChar (replaceWhere pyBadFileChar s.data) = _
  induction s.data with
  | nil => rfl
  | cons c cs ih =>
    by_cases hc : pyBadFileChar c = true
    · simp [replaceWhere, hc]
      exact ih
    · simp [replaceWhere, hc]
      exact ih

/-- C4: per-item failures never stop the batch, and only pre-flight
failure aborts it.  Whatever each document's external calls and stage
outputs do — including raising at any point, all of which the coordinator
catches at the per-document boundary — the run's log records every
document, in order, exactly when the pre-flight checks pass; when a
pre-flight check fails, no document is ever attempted. -/
theorem c4_every_document_attempted (pre : Preflight) (docs : List Document)
    (st : RunState) :
    (processar_pdfs pre docs st).1.log =
      st.log ++ (if pre.dirsOk && pre.configsOk && !docs.isEmpty && pre.llmOk
                 then docs.map (·.stem) else []) := by
  unfold processar_pdfs
  cases hd : pre.dirsOk with
  | false => simp [hd]
  | true =>
    cases hc : pre.configsOk with
    | false => simp [hd, hc]
    | true =>
      cases hde : docs.isEmpty with
      | true => simp [hd, hc, hde]
      | false =>
        cases hl : pre.llmOk with
        | false => simp [hd, hc, hde, hl]
        | true =>
          exact pdfLoop_log docs st false

/-- C5: the coordinator returns `true` exactly when at least one source
document passes all four stages (read with a validated payload, review
with a persisted record, substantial research output, and a truthy
article kickoff); when every document fails at some stage it returns
`false`. -/
theorem c5_success_iff_some_document_succeeds (pre : Preflight)
    (docs : List Document) (st : RunState)
    (h1 : pre.dirsOk = true) (h2 : pre.configsOk = true) (h3 : pre.llmOk = true) :
    (processar_pdfs pre docs st).2 = true ↔
      ∃ d ∈ docs, docSuccess d.behavior = true := by
  unfold processar_pdfs
  rw [h1, h2, h3]
  cases hde : docs.isEmpty with
  | true =>
    rw [List.isEmpty_iff.mp hde]
    simp
  | false =>
    change (pdfLoop docs st false).2 = true ↔ _
    rw [pdfLoop_flag]
    simp [List.any_eq_true]

/-- Witness for C5 on a batch of one succeeding document. -/
theorem c5_success_iff_some_document_succeeds_witness :
    (processar_pdfs preAllOk [goodDoc] emptyState).2 = true :=
  (c5_success_iff_some_document_succeeds preAllOk [goodDoc] emptyState rfl rfl rfl).mpr
    ⟨goodDoc, List.mem_singleton.mpr rfl, by decide⟩

/-- C9: when a document's read and review stages succeed — so its record
was persisted — and a later stage fails (no substantial research output,
or the article kickoff raises or returns a falsy result), the persisted
record remains in the store unchanged (no rollback or deletion), no
markdown document is produced for that document, and the document is not
counted as a success. -/
theorem c9_record_survives_later_failure (b : DocBehavior) (stem : String)
    (st : RunState) (outs : List TaskOutput)
    (hprep : b.prep = .returns ())
    (hkick : b.kickoffLeitura = .returns (some outs))
    (hleit : (processar_resultado_leitura outs).isSome = true)
    (hrev : revisao_ok outs = true)
    (hfail : processar_resultado_pesquisa outs = none ∨
             b.kickoffArtigo = .raises ∨ b.kickoffArtigo = .returns none) :
    ∃ v, yamlTruthyDict v = true ∧
      (processDoc b stem st).1.yamls = (yamlOutputFile stem, v) :: st.yamls ∧
      (processDoc b stem st).1.markdowns = st.markdowns ∧
      (processDoc b stem st).2 = false := by
  obtain ⟨v, hv, heq⟩ := revisao_write_of_ok hrev stem { st with log := st.log ++ [stem] }
  refine ⟨v, hv, ?_⟩
  unfold processDoc
  rw [hprep, hkick]
  dsimp only
  cases hl : processar_resultado_leitura outs with
  | none => rw [hl] at hleit; exact absurd hleit (by simp)
  | some y =>
    dsimp only
    rw [heq]
    dsimp only
    cases hp : processar_resultado_pesquisa outs with
    | none => exact ⟨rfl, rfl, rfl⟩
    | some p =>
      dsimp only
      rcases hfail with hfail | hfail | hfail
      · rw [hfail] at hp; exact absurd hp (by simp)
      · rw [hfail]; exact ⟨rfl, rfl, rfl⟩
      · rw [hfail]; exact ⟨rfl, rfl, rfl⟩

/-- Witness for C9 on a concrete document whose research stage fails. -/
theorem c9_record_survives_later_failure_witness :
    ∃ v, yamlTruthyDict v = true ∧
      (processDoc staleRecordDoc "doc" emptyState).1.yamls =
        (yamlOutputFile "doc", v) :: emptyState.yamls ∧
      (processDoc staleRecordDoc "doc" emptyState).1.markdowns = emptyState.markdowns ∧
      (processDoc staleRecordDoc "doc" emptyState).2 = false :=
  c9_record_survives_later_failure staleRecordDoc "doc" emptyState noResearchOuts
    rfl rfl (by decide) (by decide) (Or.inl rfl)

/-- Lookup in a string-valued record embedded as a keyed document. -/
theorem lookupKey_strDict (l : List (String × String)) (key : String) :
    lookupKey (l.map (fun p => (p.1, Yaml.str p.2))) key =
      (lookupStr l key).map Yaml.str := by
  induction l with
  | nil => rfl
  | cons p rest ih =>
    unfold lookupKey lookupStr
    dsimp only [List.map]
    by_cases hk : (p.1 == key) = true
    · rw [if_pos hk, if_pos hk]
      rfl
    · rw [if_neg hk, if_neg hk]
      exact ih

/-- On a string-valued record the section loop never errors and emits
exactly the present sections, in the traversal's order, as heading,
body and separator strings. -/
theorem sectionContent_strDict (artigo : List (String × String)) :
    ∀ sects : List (String × String),
      sectionContent (strDict artigo) sects =
        some (((sects.filter (fun s => (lookupStr artigo s.1).isSome)).flatMap
          (fun s => ["\n## " ++ s.2 ++ "\n", (lookupStr artigo s.1).getD "", "\n"])).map
            Yaml.str) := by
  intro sects
  induction sects with
  | nil => rfl
  | cons s rest ih =>
    obtain ⟨k, t⟩ := s
    have hcont : yamlContains (strDict artigo) k =
        some (lookupStr artigo k).isSome := by
      unfold yamlContains strDict
      dsimp only
      rw [lookupKey_strDict]
      cases lookupStr artigo k <;> rfl
    cases hl : lookupStr artigo k with
    | none =>
      simp only [sectionContent, hcont, hl, Option.isSome_none, ih]
      simp [List.filter_cons, hl]
    | some v =>
      have hsub : yamlSubscript (strDict artigo) k = some (Yaml.str v) := by
        unfold yamlSubscript strDict
        dsimp only
        rw [lookupKey_strDict, hl]
        rfl
      simp only [sectionContent, hcont, hl, Option.isSome_some, hsub, ih]
      simp [List.filter_cons, hl]

/-- Joining a list of string values never errors. -/
theorem strParts_map_str (l : List String) : strParts (l.map Yaml.str) = some l := by
  induction l with
  | nil => rfl
  | cons s rest ih =>
    unfold strParts
    dsimp only [List.map]
    rw [ih]
    rfl

/-- C8: a section key of the renderer's mapping that is absent from the
record's `ARTIGO` entry is omitted from the rendered output — no heading
and no empty body for it, with no error — and the output is exactly the
header, the present sections in the mapping's declared order, and the
footer. -/
theorem c8_missing_sections_omitted (artigo : List (String × String))
    (name key title : String)
    (hmem : (key, title) ∈ sections)
    (habs : lookupStr artigo key = none) :
    generate_linkedin_article (Yaml.dict [("ARTIGO", Yaml.list [strDict artigo])]) name =
      some (String.intercalate "\n"
        (headerStrings name ++ bodyStrings artigo ++ footerStrings)) ∧
    key ∉ (sections.filter (fun s => (lookupStr artigo s.1).isSome)).map Prod.fst := by
  constructor
  · unfold generate_linkedin_article buildContent
    dsimp only
    rw [show lookupKey [("ARTIGO", Yaml.list [strDict artigo])] "ARTIGO" =
        some (Yaml.list [strDict artigo]) from rfl]
    dsimp only
    rw [sectionContent_strDict artigo sections]
    dsimp only
    rw [show ∀ l1 l2 l3 : List String,
        (l1.map Yaml.str ++ l2.map Yaml.str ++ l3.map Yaml.str) =
          (l1 ++ l2 ++ l3).map Yaml.str from by simp]
    rw [strParts_map_str]
    rfl
  · intro hk
    obtain ⟨s, hs, hfst⟩ := List.mem_map.mp hk
    have hpred := (List.mem_filter.mp hs).2
    rw [hfst] at hpred
    rw [habs] at hpred
    simp at hpred

/-- Witness for C8 on a record holding only `OBJETIVOS`, with the absent
key `GAP`. -/
theorem c8_missing_sections_omitted_witness :
    generate_linkedin_article
        (Yaml.dict [("ARTIGO", Yaml.list [strDict [("OBJETIVOS", "obj")]])]) "doc.pdf" =
      some (String.intercalate "\n"
        (headerStrings "doc.pdf" ++ bodyStrings [("OBJETIVOS", "obj")] ++ footerStrings)) ∧
    "GAP" ∉ (sections.filter
      (fun s => (lookupStr [("OBJETIVOS", "obj")] s.1).isSome)).map Prod.fst :=
  c8_missing_sections_omitted [("OBJETIVOS", "obj")] "doc.pdf" "GAP"
    "🎯 Por que isso importa?" (by simp [sections]) (by decide)

/-- C10: when the record's `ARTIGO` value is a non-empty sequence, the
renderer uses only its first entry — a record whose sequence has further
entries renders identically to one holding the first entry alone. -/
theorem c10_renderer_uses_first_entry (kvs kvs2 : List (String × Yaml))
    (e : Yaml) (rest : List Yaml) (name : String)
    (h1 : lookupKey kvs "ARTIGO" = some (Yaml.list (e :: rest)))
    (h2 : lookupKey kvs2 "ARTIGO" = some (Yaml.list [e])) :
    generate_linkedin_article (Yaml.dict kvs) name =
      generate_linkedin_article (Yaml.dict kvs2) name := by
  unfold generate_linkedin_article buildContent
  dsimp only
  rw [h1, h2]

/-- Witness for C10 on a two-entry sequence whose second entry is
ignored. -/
theorem c10_renderer_uses_first_entry_witness :
    generate_linkedin_article
        (Yaml.dict [("ARTIGO",
          Yaml.list [Yaml.dict [("GAP", Yaml.str "x")], Yaml.str "extra"])]) "n" =
      generate_linkedin_article
        (Yaml.dict [("ARTIGO", Yaml.list [Yaml.dict [("GAP", Yaml.str "x")]])]) "n" :=
  c10_renderer_uses_first_entry _ _ (Yaml.dict [("GAP", Yaml.str "x")])
    [Yaml.str "extra"] "n" rfl rfl

end RevisorArtigos
